import Mathlib

/-
Verification of the compilation orchestration layer of libauth
(src/lib/template/language/compile.ts): the diagnostics formatter, the
parse/resolve/reduce stage pipeline, the dependency resolver with cycle
detection, and the P2SH and locktime protocol transforms.

The external collaborators (parseScript, createIdentifierResolver,
resolveScriptSegment, getResolutionErrors, reduceScript, and
createCompilerCommonSynchronous) live in other repository modules and are
modelled as function parameters bundled in a Collaborators record; where a
claim depends on their behavior, that behavior is assumed via hypotheses
taken from their documented contracts.
-/

set_option maxHeartbeats 1000000

namespace Libauth

/-- Location record for error reporting (the TS Range type). -/
structure SourceRange where
  startLineNumber : Nat
  startColumn : Nat
  endLineNumber : Nat
  endColumn : Nat
deriving DecidableEq

/-- The emptyRange constant from compile.ts: an all-zero range denoting no
specific location. -/
def emptyRange : SourceRange :=
  { startLineNumber := 0, startColumn := 0, endLineNumber := 0, endColumn := 0 }

/-- A located error message. -/
structure CompilationError where
  error : String
  range : SourceRange
deriving DecidableEq

/-- Result of the reduceScript collaborator: final bytecode plus optional
evaluation errors (debug state omitted as opaque). Bytes are modelled as Nat. -/
structure Reduction where
  bytecode : List Nat
  errors : Option (List CompilationError)
deriving DecidableEq

/-- The CompilationResult record. TS objects are field bags, so every
optional field is an explicit Option; a missing field is none. The success
flag and the optional errorType discriminate the variants. -/
structure CompilationResult (Tree Resolved : Type) where
  success : Bool
  errorType : Option String := none
  errors : Option (List CompilationError) := none
  bytecode : Option (List Nat) := none
  parse : Option Tree := none
  resolve : Option Resolved := none
  reduce : Option Reduction := none
  transformed : Option String := none
deriving DecidableEq

/-- The CompilerOperationData bound for compileScript: it extends
a record with a mandatory numeric locktime field. -/
structure OperationData where
  locktime : Nat
deriving DecidableEq

/-- CompilationData: operationData is optional; the variable bindings that
only the (external) resolver consumes are kept as an opaque bytecode map. -/
structure CompilationData where
  operationData : Option OperationData := none
  bytecode : List (String × List Nat) := []
deriving DecidableEq

/-- CompilationEnvironment: script source table, classification maps, the
ancestry chain (sourceScriptIds), and the opaque vm / createState values
(type parameters V and S). TS optional maps are modelled as total functions
into Option. -/
structure CompilationEnvironment (V S : Type) where
  scripts : String → Option String
  vm : Option V := none
  createState : S
  sourceScriptIds : Option (List String) := none
  unlockingScriptTimeLockTypes : String → Option String := fun _ => none
  unlockingScripts : String → Option String := fun _ => none
  lockingScriptTypes : String → Option String := fun _ => none

/-- Result of the parseScript collaborator: status true with a parse tree,
or status false with the expected-token list and the failure position. -/
inductive ParseResult (Tree : Type) where
  | success (value : Tree)
  | failure (expected : List String) (line : Nat) (column : Nat)

/-- The external collaborators consumed by compile.ts, bundled as explicit
function parameters. createCompilerCommonSynchronous is curried as
scripts, variables, vm, then the generateBytecode arguments
(script id, bytecode bindings). -/
structure Collaborators (Tree Resolved R V S : Type) where
  parseScript : String → ParseResult Tree
  createIdentifierResolver : CompilationData → CompilationEnvironment V S → R
  resolveScriptSegment : Tree → R → Resolved
  getResolutionErrors : Resolved → List CompilationError
  reduceScript : Resolved → Option V → S → Reduction
  createCompilerCommonSynchronous :
    List (String × String) → List (String × String) → Option V → String →
      List (String × List Nat) → CompilationResult Tree Resolved

/-- describeExpectedInput from compile.ts. The out-of-bounds read
newArray[newArray.length - 1] on an empty array yields undefined in JS,
which the template literal renders as the text undefined; the getD default
models exactly that. -/
def describeExpectedInput (expectedArray : List String) : String :=
  let newArrayFiltered := expectedArray.filter (fun value => value != "EOF")
  let newArray :=
    if newArrayFiltered.length ≠ expectedArray.length then
      newArrayFiltered ++ ["the end of the script"]
    else newArrayFiltered
  let withoutLastElement := newArray.take (newArray.length - 1)
  let lastElement := newArray.getD (newArray.length - 1) "undefined"
  "Encountered unexpected input while parsing script. Expected " ++
    (if 3 ≤ newArray.length then
      String.intercalate ", " withoutLastElement ++ (", or " ++ lastElement)
    else if newArray.length = 2 then
      String.intercalate " or " newArray
    else lastElement) ++ "."

variable {Tree Resolved R V S : Type}

/-- compileScriptContents: the parse, resolve, reduce stage pipeline. -/
def compileScriptContents (C : Collaborators Tree Resolved R V S) (script : String)
    (data : CompilationData) (environment : CompilationEnvironment V S) :
    CompilationResult Tree Resolved :=
  match C.parseScript script with
  | ParseResult.failure expected line column =>
      { success := false
        errorType := some "parse"
        errors := some [{ error := describeExpectedInput expected
                          range := { startLineNumber := line, startColumn := column
                                     endLineNumber := line, endColumn := column } }] }
  | ParseResult.success value =>
      let resolver := C.createIdentifierResolver data environment
      let resolvedScript := C.resolveScriptSegment value resolver
      let resolutionErrors := C.getResolutionErrors resolvedScript
      if resolutionErrors.length ≠ 0 then
        { success := false
          errorType := some "resolve"
          errors := some resolutionErrors
          parse := some value
          resolve := some resolvedScript }
      else
        let reduction := C.reduceScript resolvedScript environment.vm environment.createState
        match reduction.errors with
        | none =>
            { success := true
              bytecode := some reduction.bytecode
              parse := some value
              reduce := some reduction
              resolve := some resolvedScript }
        | some errs =>
            { success := false
              errorType := some "reduce"
              errors := some errs
              parse := some value
              reduce := some reduction
              resolve := some resolvedScript }

/-- The missing-script error of compileScriptRaw. -/
def missingScriptError (scriptId : String) : CompilationError :=
  { error := "No script with an ID of \"" ++ scriptId ++
      "\" was provided in the compilation environment."
    range := emptyRange }

/-- The circular-dependency error of compileScriptRaw: the ancestry chain is
rendered arrow-joined. -/
def circularDependencyError (scriptId : String) (sourceScriptIds : List String) :
    CompilationError :=
  { error := "A circular dependency was encountered: script \"" ++ scriptId ++
      "\" relies on itself to be generated. (Source scripts: " ++
      String.intercalate " → " sourceScriptIds ++ ")"
    range := emptyRange }

/-- compileScriptRaw: script source lookup, cycle detection against the
sourceScriptIds ancestry chain, then delegation to the stage pipeline with
the chain extended by this script id. -/
def compileScriptRaw (C : Collaborators Tree Resolved R V S) (data : CompilationData)
    (environment : CompilationEnvironment V S) (scriptId : String) :
    CompilationResult Tree Resolved :=
  match environment.scripts scriptId with
  | none =>
      { success := false
        errorType := some "parse"
        errors := some [missingScriptError scriptId] }
  | some script =>
      if (environment.sourceScriptIds.getD []).contains scriptId then
        { success := false
          errorType := some "parse"
          errors := some [circularDependencyError scriptId (environment.sourceScriptIds.getD [])] }
      else
        let sourceScriptIds :=
          match environment.sourceScriptIds with
          | none => [scriptId]
          | some ids => ids ++ [scriptId]
        compileScriptContents C script data
          { environment with sourceScriptIds := some sourceScriptIds }

/-- compileScriptP2shLocking: build a one-script compiler for the synthetic
P2SH locking wrapper and generate its bytecode with the raw locking bytecode
bound to the lockingBytecode variable. -/
def compileScriptP2shLocking (C : Collaborators Tree Resolved R V S)
    (lockingBytecode : List Nat) (vm : Option V) : CompilationResult Tree Resolved :=
  C.createCompilerCommonSynchronous
    [("p2shLocking", "OP_HASH160 <$(<lockingBytecode> OP_HASH160)> OP_EQUAL")]
    [("lockingBytecode", "AddressData")]
    vm
    "p2shLocking"
    [("lockingBytecode", lockingBytecode)]

/-- compileScriptP2shUnlocking: build a one-script compiler for the synthetic
P2SH unlocking assembly and generate its bytecode with both bound variables. -/
def compileScriptP2shUnlocking (C : Collaborators Tree Resolved R V S)
    (lockingBytecode unlockingBytecode : List Nat) : CompilationResult Tree Resolved :=
  C.createCompilerCommonSynchronous
    [("p2shUnlocking", "unlockingBytecode <lockingBytecode>")]
    [("lockingBytecode", "AddressData"), ("unlockingBytecode", "AddressData")]
    none
    "p2shUnlocking"
    [("lockingBytecode", lockingBytecode), ("unlockingBytecode", unlockingBytecode)]

/-- The height versus timestamp locktime threshold. -/
def lockTimeTypeBecomesTimestamp : Nat := 500000000

/-- The locktime-type mismatch error for height-typed scripts. -/
def heightLocktimeError (scriptId : String) (locktime : Nat) : CompilationError :=
  { error := "The script \"" ++ scriptId ++
      "\" requires a height-based locktime (less than 500,000,000), but this transaction uses a timestamp-based locktime (\"" ++
      toString locktime ++ "\")."
    range := emptyRange }

/-- The locktime-type mismatch error for timestamp-typed scripts. -/
def timestampLocktimeError (scriptId : String) (locktime : Nat) : CompilationError :=
  { error := "The script \"" ++ scriptId ++
      "\" requires a timestamp-based locktime (greater than or equal to 500,000,000), but this transaction uses a height-based locktime (\"" ++
      toString locktime ++ "\")."
    range := emptyRange }

/-- The unlockingScriptType computation of compileScript, lines 264 to 268:
look at the paired locking script of an unlocking script, if any. -/
def unlockingScriptTypeOf (environment : CompilationEnvironment V S)
    (scriptId : String) : Option String :=
  match environment.unlockingScripts scriptId with
  | none => none
  | some unlocks => environment.lockingScriptTypes unlocks

/-- The part of compileScript after the locktime gate: raw compilation, then
the P2SH locking wrap or the P2SH unlocking assembly. The bytecode reads on
success results use a getD default that is unreachable because TS narrowing
guarantees the field is present there. -/
def compileScriptPostGate (C : Collaborators Tree Resolved R V S) (scriptId : String)
    (data : CompilationData) (environment : CompilationEnvironment V S) :
    CompilationResult Tree Resolved :=
  let rawResult := compileScriptRaw C data environment scriptId
  if rawResult.success = false then rawResult
  else if environment.lockingScriptTypes scriptId = some "p2sh" then
    let transformedResult :=
      compileScriptP2shLocking C (rawResult.bytecode.getD []) environment.vm
    if transformedResult.success = false then transformedResult
    else { rawResult with bytecode := transformedResult.bytecode
                          transformed := some "p2sh-locking" }
  else if unlockingScriptTypeOf environment scriptId = some "p2sh" then
    let lockingBytecodeResult :=
      compileScriptRaw C data environment ((environment.unlockingScripts scriptId).getD "")
    if lockingBytecodeResult.success = false then lockingBytecodeResult
    else
      let transformedResult :=
        compileScriptP2shUnlocking C (lockingBytecodeResult.bytecode.getD [])
          (rawResult.bytecode.getD [])
      if transformedResult.success = false then lockingBytecodeResult
      else { rawResult with bytecode := transformedResult.bytecode
                            transformed := some "p2sh-unlocking" }
  else rawResult

/-- compileScript: the public entry point. The locktime-type gate runs first;
if it does not fire, the post-gate pipeline runs. -/
def compileScript (C : Collaborators Tree Resolved R V S) (scriptId : String)
    (data : CompilationData) (environment : CompilationEnvironment V S) :
    CompilationResult Tree Resolved :=
  match data.operationData with
  | some opData =>
      if environment.unlockingScriptTimeLockTypes scriptId = some "height" ∧
          lockTimeTypeBecomesTimestamp ≤ opData.locktime then
        { success := false
          errorType := some "parse"
          errors := some [heightLocktimeError scriptId opData.locktime] }
      else if environment.unlockingScriptTimeLockTypes scriptId = some "timestamp" ∧
          opData.locktime < lockTimeTypeBecomesTimestamp then
        { success := false
          errorType := some "parse"
          errors := some [timestampLocktimeError scriptId opData.locktime] }
      else compileScriptPostGate C scriptId data environment
  | none => compileScriptPostGate C scriptId data environment

/-! Spec-side rendering of the Diagnostics Formatter, for the refinement
comparison of claim C7. These two definitions follow the wording of the
spec, not the source. -/

/-- Stated from the spec wording: if the end-of-input sentinel is present it
is removed and the literal phrase is appended at the end of the remaining
list. -/
def expectedListSpec (expected : List String) : List String :=
  if "EOF" ∈ expected then
    expected.filter (fun v => v != "EOF") ++ ["the end of the script"]
  else expected

/-- Stated from the spec wording: one item is rendered alone, two items are
joined with the word or, and for three or more items all but the last are
comma-joined and a final or-clause is appended. The empty list is outside
the rules given by the spec. -/
def joinExpectedSpec : List String → String
  | [] => ""
  | [a] => a
  | [a, b] => String.intercalate " or " [a, b]
  | a :: b :: c :: rest =>
      String.intercalate ", " ((a :: b :: c :: rest).dropLast) ++
        (", or " ++ (a :: b :: c :: rest).getLastD "")

/-- The CompilationResult contract: a failure result has no bytecode field
and a non-empty error list; a success result always has a bytecode field. -/
def ResultInvariant (r : CompilationResult Tree Resolved) : Prop :=
  (r.success = false → r.bytecode = none ∧ ∃ es, r.errors = some es ∧ es ≠ []) ∧
  (r.success = true → ∃ b, r.bytecode = some b)

/-- The locktime-type gate of compileScript does not fire: whenever a
locktime is supplied, it is compatible with the declared time-lock type of
the script. -/
def locktimeGatePasses (scriptId : String) (data : CompilationData)
    (environment : CompilationEnvironment V S) : Prop :=
  ∀ opData, data.operationData = some opData →
    ¬(environment.unlockingScriptTimeLockTypes scriptId = some "height" ∧
        lockTimeTypeBecomesTimestamp ≤ opData.locktime) ∧
    ¬(environment.unlockingScriptTimeLockTypes scriptId = some "timestamp" ∧
        opData.locktime < lockTimeTypeBecomesTimestamp)

/-! Concrete collaborator and environment instances used to evaluate the
theorems at concrete inputs. -/

/-- Trivial collaborators: parsing, resolution and reduction always succeed;
the synchronous common compiler returns bytecode [2]. -/
def unitCollab : Collaborators Unit Unit Unit Unit Unit :=
  { parseScript := fun _ => ParseResult.success ()
    createIdentifierResolver := fun _ _ => ()
    resolveScriptSegment := fun _ _ => ()
    getResolutionErrors := fun _ => []
    reduceScript := fun _ _ _ => { bytecode := [1], errors := none }
    createCompilerCommonSynchronous := fun _ _ _ _ _ =>
      { success := true, bytecode := some [2] } }

/-- Collaborators whose synchronous common compiler always fails, so every
P2SH wrapping compilation fails. -/
def wrapFailCollab : Collaborators Unit Unit Unit Unit Unit :=
  { unitCollab with
    createCompilerCommonSynchronous := fun _ _ _ _ _ =>
      { success := false, errorType := some "parse"
        errors := some [{ error := "wrap failed", range := emptyRange }] } }

/-- Collaborators whose resolution stage reports one error. -/
def resolveFailCollab : Collaborators Unit Unit Unit Unit Unit :=
  { unitCollab with
    getResolutionErrors := fun _ =>
      [{ error := "unknown identifier", range := emptyRange }] }

/-- Collaborators whose reduction stage reports one error. -/
def reduceFailCollab : Collaborators Unit Unit Unit Unit Unit :=
  { unitCollab with
    reduceScript := fun _ _ _ =>
      { bytecode := []
        errors := some [{ error := "reduce failed", range := emptyRange }] } }

/-- A minimal environment with a single unclassified script. -/
def envSimple : CompilationEnvironment Unit Unit :=
  { scripts := fun sid => if sid = "a" then some "sa" else none
    createState := () }

/-- Environment in which the script unlock is an unlocking script paired
with the p2sh-typed locking script lock. -/
def envC1 : CompilationEnvironment Unit Unit :=
  { scripts := fun sid =>
      if sid = "unlock" then some "su" else if sid = "lock" then some "sl" else none
    createState := ()
    unlockingScripts := fun sid => if sid = "unlock" then some "lock" else none
    lockingScriptTypes := fun sid => if sid = "lock" then some "p2sh" else none }

/-- Environment in which the script lk is a p2sh-typed locking script. -/
def envLock : CompilationEnvironment Unit Unit :=
  { scripts := fun sid => if sid = "lk" then some "sl" else none
    createState := ()
    lockingScriptTypes := fun sid => if sid = "lk" then some "p2sh" else none }

/-- Environment in which the script x is both a p2sh-typed locking script
and an unlocking script paired with the p2sh-typed locking script y. -/
def envBoth : CompilationEnvironment Unit Unit :=
  { scripts := fun sid =>
      if sid = "x" then some "sx" else if sid = "y" then some "sy" else none
    createState := ()
    unlockingScripts := fun sid => if sid = "x" then some "y" else none
    lockingScriptTypes := fun sid =>
      if sid = "x" then some "p2sh" else if sid = "y" then some "p2sh" else none }

/-- Environment declaring time-lock types: script h requires a height
locktime, script t a timestamp locktime, script z is undeclared. -/
def envTL : CompilationEnvironment Unit Unit :=
  { scripts := fun _ => some "s"
    createState := ()
    unlockingScriptTimeLockTypes := fun sid =>
      if sid = "h" then some "height" else if sid = "t" then some "timestamp" else none }

/-- Environment whose ancestry chain holds a and b while the script source
table is empty. -/
def envCycleMissing : CompilationEnvironment Unit Unit :=
  { scripts := fun _ => none
    createState := ()
    sourceScriptIds := some ["a", "b"] }

/-- Environment whose ancestry chain already holds the known script a. -/
def envCycle : CompilationEnvironment Unit Unit :=
  { scripts := fun sid => if sid = "a" then some "sa" else none
    createState := ()
    sourceScriptIds := some ["a"] }

/-- Compilation data carrying a timestamp-sized locktime. -/
def data600 : CompilationData := { operationData := some { locktime := 600000000 } }

/-- Compilation data carrying a height-sized locktime. -/
def data1 : CompilationData := { operationData := some { locktime := 1 } }

/-- Compilation data carrying exactly the threshold locktime. -/
def data500 : CompilationData := { operationData := some { locktime := 500000000 } }

/-- Filtering one value changes the length exactly when the value occurs. -/
lemma length_filter_bne_ne_iff (a : String) (l : List String) :
    ((l.filter (fun v => v != a)).length ≠ l.length) ↔ a ∈ l := by
  induction l with
  | nil => simp
  | cons b t ih =>
    rw [List.filter_cons]
    by_cases hb : (b != a) = true
    · have hba : ¬a = b := by
        have := bne_iff_ne.mp hb
        exact fun hab => this hab.symm
      simp only [if_pos hb, List.length_cons, List.mem_cons, ne_eq,
        Nat.add_right_cancel_iff]
      rw [← ne_eq, ih]
      simp [hba]
    · have hba : b = a := by
        by_contra hne
        exact hb (bne_iff_ne.mpr hne)
      subst hba
      have hle := List.length_filter_le (fun v => v != b) t
      simp only [if_neg hb, List.length_cons, List.mem_cons, ne_eq]
      constructor
      · intro _; exact Or.inl trivial
      · intro _; omega

/-- Filtering out a value that does not occur leaves the list unchanged. -/
lemma filter_bne_eq_self_of_not_mem (a : String) (l : List String) (h : a ∉ l) :
    l.filter (fun v => v != a) = l :=
  List.filter_eq_self.mpr fun _x hx => bne_iff_ne.mpr (fun hxa => h (hxa ▸ hx))

/-- On a nonempty list, reading at index length minus one equals the last
element, whatever the defaults. -/
lemma getD_last_eq_getLastD (l : List String) (h : l ≠ []) (d d' : String) :
    l.getD (l.length - 1) d = l.getLastD d' := by
  rw [List.getD_eq_getElem?_getD, List.getLastD_eq_getLast?, List.getLast?_eq_getElem?]
  have hlt : l.length - 1 < l.length := by
    have := List.length_pos.mpr h; omega
  rw [List.getElem?_eq_getElem hlt]
  rfl

/-- The sentinel-handled list is nonempty whenever the input is. -/
lemma expectedListSpec_ne_nil (l : List String) (h : l ≠ []) :
    expectedListSpec l ≠ [] := by
  unfold expectedListSpec
  split
  · simp
  · exact h

/-- The joining expression of describeExpectedInput agrees with the spec
rendering on every nonempty list. -/
lemma renderJoin_eq_spec (n : List String) (hn : n ≠ []) :
    (if 3 ≤ n.length then
       String.intercalate ", " (n.take (n.length - 1)) ++
         (", or " ++ n.getD (n.length - 1) "undefined")
     else if n.length = 2 then String.intercalate " or " n
     else n.getD (n.length - 1) "undefined") = joinExpectedSpec n := by
  match n with
  | [] => exact absurd rfl hn
  | [a] => simp [joinExpectedSpec]
  | [a, b] => simp [joinExpectedSpec]
  | a :: b :: c :: rest =>
    have h3 : 3 ≤ (a :: b :: c :: rest).length := by
      simp only [List.length_cons]; omega
    have h1 : (a :: b :: c :: rest) ≠ [] := by simp
    rw [if_pos h3]
    simp only [joinExpectedSpec]
    rw [← List.dropLast_eq_take, getD_last_eq_getLastD _ h1 "undefined" ""]

/-- C7: for every nonempty input list to describeExpectedInput, the
end-of-input sentinel is removed and the literal phrase the end of the
script is appended at the end of the remaining list; then one remaining
item is rendered alone, two items are joined with the word or, and three
or more items are rendered comma-joined with a final or-clause; the output
is the fixed sentence around that list and ends in a period. -/
theorem C7_formatter_rules (expectedArray : List String) (h : expectedArray ≠ []) :
    describeExpectedInput expectedArray =
      "Encountered unexpected input while parsing script. Expected " ++
        joinExpectedSpec (expectedListSpec expectedArray) ++ "." := by
  simp only [describeExpectedInput]
  have hset : (if (expectedArray.filter (fun value => value != "EOF")).length ≠
        expectedArray.length then
      expectedArray.filter (fun value => value != "EOF") ++ ["the end of the script"]
    else expectedArray.filter (fun value => value != "EOF")) =
      expectedListSpec expectedArray := by
    unfold expectedListSpec
    by_cases hm : "EOF" ∈ expectedArray
    · rw [if_pos ((length_filter_bne_ne_iff _ _).mpr hm), if_pos hm]
    · rw [if_neg (fun hne => hm ((length_filter_bne_ne_iff _ _).mp hne)), if_neg hm,
        filter_bne_eq_self_of_not_mem _ _ hm]
  rw [hset, renderJoin_eq_spec _ (expectedListSpec_ne_nil _ h)]

/-- Witness for C7 at a concrete input containing the sentinel. -/
theorem C7_witness :
    describeExpectedInput ["a", "b", "EOF"] =
      "Encountered unexpected input while parsing script. Expected " ++
        joinExpectedSpec (expectedListSpec ["a", "b", "EOF"]) ++ "." :=
  C7_formatter_rules ["a", "b", "EOF"] (by simp)

/-- C8: describeExpectedInput is a total function, defined on every input
list including the empty one (where the out-of-range JS read yields
undefined rather than an error), and its output always ends in a period. -/
theorem C8_formatter_total (expectedArray : List String) :
    ∃ s, describeExpectedInput expectedArray = s ++ "." := by
  simp only [describeExpectedInput]
  exact ⟨_, rfl⟩

/-- When the locktime gate passes, compileScript is the post-gate pipeline. -/
lemma compileScript_eq_postGate (C : Collaborators Tree Resolved R V S)
    (scriptId : String) (data : CompilationData)
    (environment : CompilationEnvironment V S)
    (h : locktimeGatePasses scriptId data environment) :
    compileScript C scriptId data environment =
      compileScriptPostGate C scriptId data environment := by
  unfold compileScript
  cases hd : data.operationData with
  | none => rfl
  | some opData =>
    obtain ⟨h1, h2⟩ := h opData hd
    simp only []
    rw [if_neg h1, if_neg h2]

/-- When the raw compilation fails, the post-gate pipeline returns the raw
result unchanged. -/
lemma postGate_of_raw_failure (C : Collaborators Tree Resolved R V S)
    (scriptId : String) (data : CompilationData)
    (environment : CompilationEnvironment V S)
    (h : (compileScriptRaw C data environment scriptId).success = false) :
    compileScriptPostGate C scriptId data environment =
      compileScriptRaw C data environment scriptId := by
  simp only [compileScriptPostGate]
  rw [if_pos h]

/-- A character of an inner string occurs in any string that embeds it. -/
lemma mem_data_of_append (p s q : String) (c : Char) (hc : c ∈ s.data) :
    c ∈ (p ++ s ++ q).data := by
  simp [String.data_append, hc]

/-- C2: when compilation data supplies a locktime, compileScript rejects a
timestamp-sized locktime for a height-typed script and a height-sized
locktime for a timestamp-typed script, immediately, with a parse-kind
zero-range error naming the script id and the value (the error is a fixed
value built only from the script id and the locktime, so it is independent
of collaborators and of all parsing, resolution or dependency work); when
the script has no declared time-lock type or no locktime is supplied the
gate is skipped; the boundary value 500000000 is rejected for height-typed
scripts and accepted for timestamp-typed scripts. -/
theorem C2_locktime_gate (C : Collaborators Tree Resolved R V S) (scriptId : String)
    (data : CompilationData) (environment : CompilationEnvironment V S) :
    lockTimeTypeBecomesTimestamp = 500000000 ∧
    (∀ opData, data.operationData = some opData →
      environment.unlockingScriptTimeLockTypes scriptId = some "height" →
      lockTimeTypeBecomesTimestamp ≤ opData.locktime →
      compileScript C scriptId data environment =
        { success := false, errorType := some "parse",
          errors := some [heightLocktimeError scriptId opData.locktime] }) ∧
    (∀ opData, data.operationData = some opData →
      environment.unlockingScriptTimeLockTypes scriptId = some "timestamp" →
      opData.locktime < lockTimeTypeBecomesTimestamp →
      compileScript C scriptId data environment =
        { success := false, errorType := some "parse",
          errors := some [timestampLocktimeError scriptId opData.locktime] }) ∧
    (environment.unlockingScriptTimeLockTypes scriptId = none →
      compileScript C scriptId data environment =
        compileScriptPostGate C scriptId data environment) ∧
    (data.operationData = none →
      compileScript C scriptId data environment =
        compileScriptPostGate C scriptId data environment) ∧
    (∀ opData, data.operationData = some opData → opData.locktime = 500000000 →
      environment.unlockingScriptTimeLockTypes scriptId = some "timestamp" →
      compileScript C scriptId data environment =
        compileScriptPostGate C scriptId data environment) ∧
    (∀ sid lt, (heightLocktimeError sid lt).range = emptyRange ∧
      (∃ p q, (heightLocktimeError sid lt).error = p ++ sid ++ q) ∧
      (∃ p q, (heightLocktimeError sid lt).error = p ++ toString lt ++ q)) ∧
    (∀ sid lt, (timestampLocktimeError sid lt).range = emptyRange ∧
      (∃ p q, (timestampLocktimeError sid lt).error = p ++ sid ++ q) ∧
      (∃ p q, (timestampLocktimeError sid lt).error = p ++ toString lt ++ q)) := by
  refine ⟨rfl, ?_, ?_, ?_, ?_, ?_, ?_, ?_⟩
  · intro opData hd hty hge
    unfold compileScript
    rw [hd]
    simp only []
    rw [if_pos ⟨hty, hge⟩]
  · intro opData hd hty hlt
    unfold compileScript
    rw [hd]
    simp only []
    rw [if_neg (fun hcon => by
      rw [hty] at hcon
      exact absurd (Option.some.inj hcon.1) (by decide))]
    rw [if_pos ⟨hty, hlt⟩]
  · intro hnone
    apply compileScript_eq_postGate
    intro opData _
    constructor
    · intro hcon; rw [hnone] at hcon; exact Option.noConfusion hcon.1
    · intro hcon; rw [hnone] at hcon; exact Option.noConfusion hcon.1
  · intro hnone
    unfold compileScript
    rw [hnone]
  · intro opData hd h500 hty
    apply compileScript_eq_postGate
    intro opData2 hd2
    rw [hd] at hd2
    cases hd2
    constructor
    · intro hcon; rw [hty] at hcon; exact absurd (Option.some.inj hcon.1) (by decide)
    · intro hcon; rw [h500] at hcon; exact absurd hcon.2 (by decide)
  · intro sid lt
    refine ⟨rfl, ?_, ?_⟩
    · exact ⟨"The script \"",
        "\" requires a height-based locktime (less than 500,000,000), but this transaction uses a timestamp-based locktime (\"" ++
          toString lt ++ "\").",
        by simp [heightLocktimeError, String.append_assoc]⟩
    · exact ⟨"The script \"" ++ sid ++
        "\" requires a height-based locktime (less than 500,000,000), but this transaction uses a timestamp-based locktime (\"",
        "\").", by simp [heightLocktimeError, String.append_assoc]⟩
  · intro sid lt
    refine ⟨rfl, ?_, ?_⟩
    · exact ⟨"The script \"",
        "\" requires a timestamp-based locktime (greater than or equal to 500,000,000), but this transaction uses a height-based locktime (\"" ++
          toString lt ++ "\").",
        by simp [timestampLocktimeError, String.append_assoc]⟩
    · exact ⟨"The script \"" ++ sid ++
        "\" requires a timestamp-based locktime (greater than or equal to 500,000,000), but this transaction uses a height-based locktime (\"",
        "\").", by simp [timestampLocktimeError, String.append_assoc]⟩

/-- Witness for C2: height rejection at 600000000, timestamp rejection at 1,
skip for an undeclared script, and acceptance of the boundary value for a
timestamp-typed script. -/
theorem C2_witness :
    compileScript unitCollab "h" data600 envTL =
      { success := false, errorType := some "parse",
        errors := some [heightLocktimeError "h" 600000000] } ∧
    compileScript unitCollab "t" data1 envTL =
      { success := false, errorType := some "parse",
        errors := some [timestampLocktimeError "t" 1] } ∧
    compileScript unitCollab "z" data600 envTL =
      compileScriptPostGate unitCollab "z" data600 envTL ∧
    compileScript unitCollab "h" data500 envTL =
      { success := false, errorType := some "parse",
        errors := some [heightLocktimeError "h" 500000000] } ∧
    compileScript unitCollab "t" data500 envTL =
      compileScriptPostGate unitCollab "t" data500 envTL := by
  refine ⟨?_, ?_, ?_, ?_, ?_⟩
  · exact (C2_locktime_gate unitCollab "h" data600 envTL).2.1 _ rfl rfl (by decide)
  · exact (C2_locktime_gate unitCollab "t" data1 envTL).2.2.1 _ rfl rfl (by decide)
  · exact (C2_locktime_gate unitCollab "z" data600 envTL).2.2.2.1 rfl
  · exact (C2_locktime_gate unitCollab "h" data500 envTL).2.1 _ rfl rfl (by decide)
  · exact (C2_locktime_gate unitCollab "t" data500 envTL).2.2.2.2.2.1 _ rfl rfl rfl

/-- C4: a script id missing from the script source table makes
compileScriptRaw fail with a parse-kind, single zero-range error whose
message contains the id verbatim; through compileScript the result is
likewise a parse-kind single zero-range failure whose message contains the
id verbatim (it is the missing-script error unless the locktime gate fired
first, whose error also names the id). -/
theorem C4_unknown_script (C : Collaborators Tree Resolved R V S)
    (data : CompilationData) (environment : CompilationEnvironment V S)
    (scriptId : String) (h : environment.scripts scriptId = none) :
    compileScriptRaw C data environment scriptId =
      { success := false, errorType := some "parse",
        errors := some [missingScriptError scriptId] } ∧
    (missingScriptError scriptId).range = emptyRange ∧
    (∃ p q, (missingScriptError scriptId).error = p ++ scriptId ++ q) ∧
    ((compileScript C scriptId data environment).success = false ∧
      (compileScript C scriptId data environment).errorType = some "parse" ∧
      ∃ e, (compileScript C scriptId data environment).errors = some [e] ∧
        e.range = emptyRange ∧ ∃ p q, e.error = p ++ scriptId ++ q) := by
  have hraw : compileScriptRaw C data environment scriptId =
      { success := false, errorType := some "parse",
        errors := some [missingScriptError scriptId] } := by
    unfold compileScriptRaw
    rw [h]
  refine ⟨hraw, rfl,
    ⟨"No script with an ID of \"", "\" was provided in the compilation environment.",
      by simp [missingScriptError, String.append_assoc]⟩, ?_⟩
  have hpg : compileScriptPostGate C scriptId data environment =
      compileScriptRaw C data environment scriptId :=
    postGate_of_raw_failure C scriptId data environment (by rw [hraw])
  unfold compileScript
  cases hd : data.operationData with
  | none =>
    rw [hpg, hraw]
    exact ⟨rfl, rfl, missingScriptError scriptId, rfl, rfl,
      "No script with an ID of \"", "\" was provided in the compilation environment.",
      by simp [missingScriptError, String.append_assoc]⟩
  | some opData =>
    simp only []
    split
    · exact ⟨rfl, rfl, heightLocktimeError scriptId opData.locktime, rfl, rfl,
        "The script \"",
        "\" requires a height-based locktime (less than 500,000,000), but this transaction uses a timestamp-based locktime (\"" ++
          toString opData.locktime ++ "\").",
        by simp [heightLocktimeError, String.append_assoc]⟩
    · split
      · exact ⟨rfl, rfl, timestampLocktimeError scriptId opData.locktime, rfl, rfl,
          "The script \"",
          "\" requires a timestamp-based locktime (greater than or equal to 500,000,000), but this transaction uses a height-based locktime (\"" ++
            toString opData.locktime ++ "\").",
          by simp [timestampLocktimeError, String.append_assoc]⟩
      · rw [hpg, hraw]
        exact ⟨rfl, rfl, missingScriptError scriptId, rfl, rfl,
          "No script with an ID of \"", "\" was provided in the compilation environment.",
          by simp [missingScriptError, String.append_assoc]⟩

/-- Witness for C4 at a concrete missing id. -/
theorem C4_witness :
    compileScriptRaw unitCollab {} envCycleMissing "nonexistent" =
      { success := false, errorType := some "parse",
        errors := some [missingScriptError "nonexistent"] } :=
  (C4_unknown_script unitCollab {} envCycleMissing "nonexistent" rfl).1

/-- Counterexample to C3 as stated: the script id b already appears in the
ancestry chain [a, b], yet because b has no entry in the script source
table, the missing-script check fires first and the resulting error message
does not contain the arrow-joined ancestry chain "a → b". -/
theorem C3_counterexample :
    (envCycleMissing.sourceScriptIds.getD []).contains "b" = true ∧
    compileScriptRaw unitCollab {} envCycleMissing "b" =
      { success := false, errorType := some "parse",
        errors := some [missingScriptError "b"] } ∧
    ¬∃ p q, (missingScriptError "b").error =
      p ++ String.intercalate " → " ["a", "b"] ++ q := by
  refine ⟨rfl, rfl, ?_⟩
  rintro ⟨p, q, hpq⟩
  have harrow : ('→' : Char) ∈ (String.intercalate " → " ["a", "b"]).data := by decide
  have hmem : ('→' : Char) ∈ (missingScriptError "b").error.data := by
    rw [hpq]
    exact mem_data_of_append _ _ _ _ harrow
  revert hmem
  decide

/-- C3 amended: when the script id appears in the ancestry chain and also
has an entry in the script source table, compileScriptRaw fails immediately
with a parse-kind zero-range error whose message contains the arrow-joined
chain in call order; when it lacks an entry, the missing-script error takes
precedence (see the counterexample). The final conjunct records the
delegation rule: outside the two failure cases, compileScriptRaw calls the
stage pipeline with the chain extended by the current id, starting a fresh
chain when none existed. -/
theorem C3_circular_dependency (C : Collaborators Tree Resolved R V S)
    (data : CompilationData) (environment : CompilationEnvironment V S)
    (scriptId s : String) (ids : List String)
    (hscript : environment.scripts scriptId = some s)
    (hids : environment.sourceScriptIds = some ids)
    (hmem : ids.contains scriptId = true) :
    compileScriptRaw C data environment scriptId =
      { success := false, errorType := some "parse",
        errors := some [circularDependencyError scriptId ids] } ∧
    (circularDependencyError scriptId ids).range = emptyRange ∧
    (∃ p q, (circularDependencyError scriptId ids).error =
      p ++ String.intercalate " → " ids ++ q) ∧
    (∀ (env2 : CompilationEnvironment V S) (sid body : String),
      env2.scripts sid = some body →
      (env2.sourceScriptIds.getD []).contains sid = false →
      compileScriptRaw C data env2 sid =
        compileScriptContents C body data
          { env2 with sourceScriptIds := some (match env2.sourceScriptIds with
              | none => [sid]
              | some prev => prev ++ [sid]) }) := by
  refine ⟨?_, rfl, ?_, ?_⟩
  · unfold compileScriptRaw
    rw [hscript]
    simp only [hids, Option.getD_some]
    rw [if_pos hmem]
  · exact ⟨"A circular dependency was encountered: script \"" ++ scriptId ++
      "\" relies on itself to be generated. (Source scripts: ", ")",
      by simp [circularDependencyError, String.append_assoc]⟩
  · intro env2 sid body h1 h2
    unfold compileScriptRaw
    rw [h1]
    simp only []
    rw [if_neg (by rw [h2]; exact Bool.false_ne_true)]

/-- Witness for C3 at a concrete one-element cycle. -/
theorem C3_witness :
    compileScriptRaw unitCollab {} envCycle "a" =
      { success := false, errorType := some "parse",
        errors := some [circularDependencyError "a" ["a"]] } :=
  (C3_circular_dependency unitCollab {} envCycle "a" "sa" ["a"] rfl rfl rfl).1

/-- Counterexample to C1 as stated: with the script unlock classified as an
unlocking script paired with the p2sh locking script lock, the raw unlocking
compilation succeeds, the locking recompilation succeeds, and the wrapping
compilation fails; yet compileScript returns the successful locking
recompilation result (a success value), not the wrapping failure. -/
theorem C1_counterexample :
    (compileScriptRaw wrapFailCollab {} envC1 "unlock").success = true ∧
    envC1.unlockingScripts "unlock" = some "lock" ∧
    envC1.lockingScriptTypes "lock" = some "p2sh" ∧
    (compileScriptRaw wrapFailCollab {} envC1 "lock").success = true ∧
    (compileScriptP2shUnlocking wrapFailCollab
      ((compileScriptRaw wrapFailCollab {} envC1 "lock").bytecode.getD [])
      ((compileScriptRaw wrapFailCollab {} envC1 "unlock").bytecode.getD [])).success
        = false ∧
    compileScript wrapFailCollab "unlock" {} envC1 =
      compileScriptRaw wrapFailCollab {} envC1 "lock" ∧
    (compileScript wrapFailCollab "unlock" {} envC1).success = true :=
  ⟨rfl, rfl, rfl, rfl, rfl, rfl, rfl⟩

/-- C1 amended: in the p2sh-unlocking branch, a failure of the paired
locking-script recompilation is propagated unmodified (the raw unlocking
success is discarded); but a failure of the wrapping compilation is not
propagated: the successful locking recompilation result is returned in its
place. -/
theorem C1_p2sh_unlocking_propagation (C : Collaborators Tree Resolved R V S)
    (scriptId u : String) (data : CompilationData)
    (environment : CompilationEnvironment V S)
    (hgate : locktimeGatePasses scriptId data environment)
    (hraw : (compileScriptRaw C data environment scriptId).success = true)
    (hnotlock : ¬environment.lockingScriptTypes scriptId = some "p2sh")
    (hu : environment.unlockingScripts scriptId = some u)
    (hp2sh : environment.lockingScriptTypes u = some "p2sh") :
    ((compileScriptRaw C data environment u).success = false →
      compileScript C scriptId data environment =
        compileScriptRaw C data environment u) ∧
    ((compileScriptRaw C data environment u).success = true →
      (compileScriptP2shUnlocking C
          ((compileScriptRaw C data environment u).bytecode.getD [])
          ((compileScriptRaw C data environment scriptId).bytecode.getD [])).success
        = false →
      compileScript C scriptId data environment =
        compileScriptRaw C data environment u) := by
  rw [compileScript_eq_postGate C scriptId data environment hgate]
  constructor
  · intro hfail
    simp [compileScriptPostGate, unlockingScriptTypeOf, hraw, hnotlock, hu,
      hp2sh, hfail]
  · intro hsucc hwrapfail
    simp [compileScriptPostGate, unlockingScriptTypeOf, hraw, hnotlock, hu,
      hp2sh, hsucc, hwrapfail]

/-- Witness for the amended C1 at the concrete wrapping-failure input. -/
theorem C1_witness :
    compileScript wrapFailCollab "unlock" {} envC1 =
      compileScriptRaw wrapFailCollab {} envC1 "lock" := by
  have h := C1_p2sh_unlocking_propagation wrapFailCollab "unlock" "lock" {} envC1
    (by intro opData hd; exact Option.noConfusion hd) rfl (by decide) rfl rfl
  exact h.2 rfl rfl

/-- C9: for a p2sh-typed locking script whose raw compilation succeeds,
the wrap is the compilation of the literal synthetic script bound to the
single lockingBytecode variable of type AddressData; on wrap failure that
failure result is returned, superseding the raw success; on wrap success
the final result is the raw result with only its bytecode replaced by the
wrapped bytecode and the transformed marker set to p2sh-locking, all other
fields (the debug artifacts) reused. -/
theorem C9_p2sh_locking_wrap (C : Collaborators Tree Resolved R V S)
    (scriptId : String) (data : CompilationData)
    (environment : CompilationEnvironment V S)
    (hgate : locktimeGatePasses scriptId data environment)
    (hp2sh : environment.lockingScriptTypes scriptId = some "p2sh")
    (hraw : (compileScriptRaw C data environment scriptId).success = true) :
    (∀ b vm, compileScriptP2shLocking C b vm =
      C.createCompilerCommonSynchronous
        [("p2shLocking", "OP_HASH160 <$(<lockingBytecode> OP_HASH160)> OP_EQUAL")]
        [("lockingBytecode", "AddressData")] vm "p2shLocking"
        [("lockingBytecode", b)]) ∧
    ((compileScriptP2shLocking C
        ((compileScriptRaw C data environment scriptId).bytecode.getD [])
        environment.vm).success = false →
      compileScript C scriptId data environment =
        compileScriptP2shLocking C
          ((compileScriptRaw C data environment scriptId).bytecode.getD [])
          environment.vm) ∧
    ((compileScriptP2shLocking C
        ((compileScriptRaw C data environment scriptId).bytecode.getD [])
        environment.vm).success = true →
      compileScript C scriptId data environment =
        { compileScriptRaw C data environment scriptId with
            bytecode := (compileScriptP2shLocking C
              ((compileScriptRaw C data environment scriptId).bytecode.getD [])
              environment.vm).bytecode
            transformed := some "p2sh-locking" }) := by
  rw [compileScript_eq_postGate C scriptId data environment hgate]
  refine ⟨fun b vm => rfl, ?_, ?_⟩
  · intro hwrapfail
    simp [compileScriptPostGate, hraw, hp2sh, hwrapfail]
  · intro hwrapsucc
    simp [compileScriptPostGate, hraw, hp2sh, hwrapsucc]

/-- Witness for C9 at a concrete p2sh-typed locking script. -/
theorem C9_witness :
    compileScript unitCollab "lk" {} envLock =
      { compileScriptRaw unitCollab {} envLock "lk" with
          bytecode := some [2], transformed := some "p2sh-locking" } := by
  have h := C9_p2sh_locking_wrap unitCollab "lk" {} envLock
    (by intro opData hd; exact Option.noConfusion hd) rfl rfl
  exact h.2.2 rfl

/-- C10: when a script id is classified both as a p2sh-typed locking script
and as an unlocking script paired with a p2sh-typed locking script, the
result of compileScript is exactly the p2sh-locking branch outcome: the
locking classification takes precedence and the unlocking assembly branch
is never reached, so at most one transform applies per call. -/
theorem C10_locking_precedence (C : Collaborators Tree Resolved R V S)
    (scriptId u : String) (data : CompilationData)
    (environment : CompilationEnvironment V S)
    (hgate : locktimeGatePasses scriptId data environment)
    (hraw : (compileScriptRaw C data environment scriptId).success = true)
    (hlock : environment.lockingScriptTypes scriptId = some "p2sh")
    (_hu : environment.unlockingScripts scriptId = some u)
    (_hup2sh : environment.lockingScriptTypes u = some "p2sh") :
    compileScript C scriptId data environment =
      (if (compileScriptP2shLocking C
            ((compileScriptRaw C data environment scriptId).bytecode.getD [])
            environment.vm).success = false then
        compileScriptP2shLocking C
          ((compileScriptRaw C data environment scriptId).bytecode.getD [])
          environment.vm
      else
        { compileScriptRaw C data environment scriptId with
            bytecode := (compileScriptP2shLocking C
              ((compileScriptRaw C data environment scriptId).bytecode.getD [])
              environment.vm).bytecode
            transformed := some "p2sh-locking" }) := by
  rw [compileScript_eq_postGate C scriptId data environment hgate]
  simp [compileScriptPostGate, hraw, hlock]

/-- Witness for C10 at a concrete doubly-classified script. -/
theorem C10_witness :
    compileScript unitCollab "x" {} envBoth =
      { compileScriptRaw unitCollab {} envBoth "x" with
          bytecode := some [2], transformed := some "p2sh-locking" } := by
  have h := C10_locking_precedence unitCollab "x" "y" {} envBoth
    (by intro opData hd; exact Option.noConfusion hd) rfl rfl rfl rfl
  rw [h]
  rfl

/-- A failure literal with a single error satisfies the result contract. -/
lemma resultInvariant_failure (et : String) (e : CompilationError) :
    ResultInvariant ({ success := false, errorType := some et, errors := some [e] } :
      CompilationResult Tree Resolved) :=
  ⟨fun _ => ⟨rfl, [e], rfl, by simp⟩, fun h => nomatch h⟩

/-- The stage pipeline satisfies the result contract, given that the
reduction collaborator never reports an empty error list. -/
lemma resultInvariant_contents (C : Collaborators Tree Resolved R V S)
    (hreduce : ∀ rs vm st, (C.reduceScript rs vm st).errors ≠ some [])
    (script : String) (data : CompilationData)
    (environment : CompilationEnvironment V S) :
    ResultInvariant (compileScriptContents C script data environment) := by
  unfold compileScriptContents
  cases hp : C.parseScript script with
  | failure expected line column =>
    exact ⟨fun _ => ⟨rfl, _, rfl, by simp⟩, fun h => nomatch h⟩
  | success value =>
    simp only []
    split
    · next hres =>
      refine ⟨fun _ => ⟨rfl, _, rfl, fun hnil => hres ?_⟩, fun h => nomatch h⟩
      rw [hnil]
      rfl
    · next _hres =>
      split
      · next heq => exact ⟨(fun h => nomatch h), fun _ => ⟨_, rfl⟩⟩
      · next errs heq =>
        refine ⟨fun _ => ⟨rfl, errs, rfl, fun hnil => ?_⟩, (fun h => nomatch h)⟩
        rw [hnil] at heq
        exact hreduce _ _ _ heq

/-- The dependency resolver satisfies the result contract. -/
lemma resultInvariant_raw (C : Collaborators Tree Resolved R V S)
    (hreduce : ∀ rs vm st, (C.reduceScript rs vm st).errors ≠ some [])
    (data : CompilationData) (environment : CompilationEnvironment V S)
    (scriptId : String) :
    ResultInvariant (compileScriptRaw C data environment scriptId) := by
  unfold compileScriptRaw
  cases hs : environment.scripts scriptId with
  | none => exact resultInvariant_failure "parse" _
  | some script =>
    simp only []
    split
    · exact resultInvariant_failure "parse" _
    · exact resultInvariant_contents C hreduce script data _

/-- The post-gate pipeline satisfies the result contract, additionally
assuming the synchronous common compiler honors it. -/
lemma resultInvariant_postGate (C : Collaborators Tree Resolved R V S)
    (hreduce : ∀ rs vm st, (C.reduceScript rs vm st).errors ≠ some [])
    (hccs : ∀ scripts vars vm id bindings,
      ResultInvariant (C.createCompilerCommonSynchronous scripts vars vm id bindings))
    (scriptId : String) (data : CompilationData)
    (environment : CompilationEnvironment V S) :
    ResultInvariant (compileScriptPostGate C scriptId data environment) := by
  have hraw := resultInvariant_raw C hreduce data environment scriptId
  simp only [compileScriptPostGate]
  split
  · exact hraw
  · next hns =>
    have hsucc : (compileScriptRaw C data environment scriptId).success = true := by
      revert hns
      cases (compileScriptRaw C data environment scriptId).success <;> simp
    split
    · split
      · exact hccs _ _ _ _ _
      · next hts =>
        have htsucc : (compileScriptP2shLocking C
            ((compileScriptRaw C data environment scriptId).bytecode.getD [])
            environment.vm).success = true := by
          revert hts
          cases (compileScriptP2shLocking C
            ((compileScriptRaw C data environment scriptId).bytecode.getD [])
            environment.vm).success <;> simp
        obtain ⟨b, hb⟩ := (hccs _ _ _ _ _).2 htsucc
        exact ⟨fun h => absurd h (by simp [hsucc]), fun _ => ⟨b, hb⟩⟩
    · split
      · have hlock := resultInvariant_raw C hreduce data environment
          ((environment.unlockingScripts scriptId).getD "")
        split
        · exact hlock
        · next hls =>
          split
          · exact hlock
          · next hts =>
            have htsucc : (compileScriptP2shUnlocking C
                ((compileScriptRaw C data environment
                  ((environment.unlockingScripts scriptId).getD "")).bytecode.getD [])
                ((compileScriptRaw C data environment scriptId).bytecode.getD [])).success
                  = true := by
              revert hts
              cases (compileScriptP2shUnlocking C
                ((compileScriptRaw C data environment
                  ((environment.unlockingScripts scriptId).getD "")).bytecode.getD [])
                ((compileScriptRaw C data environment scriptId).bytecode.getD [])).success
                <;> simp
            obtain ⟨b, hb⟩ := (hccs _ _ _ _ _).2 htsucc
            exact ⟨fun h => absurd h (by simp [hsucc]), fun _ => ⟨b, hb⟩⟩
      · exact hraw

/-- The full entry point satisfies the result contract. -/
lemma resultInvariant_compileScript (C : Collaborators Tree Resolved R V S)
    (hreduce : ∀ rs vm st, (C.reduceScript rs vm st).errors ≠ some [])
    (hccs : ∀ scripts vars vm id bindings,
      ResultInvariant (C.createCompilerCommonSynchronous scripts vars vm id bindings))
    (scriptId : String) (data : CompilationData)
    (environment : CompilationEnvironment V S) :
    ResultInvariant (compileScript C scriptId data environment) := by
  unfold compileScript
  cases hd : data.operationData with
  | none => exact resultInvariant_postGate C hreduce hccs scriptId data environment
  | some opData =>
    simp only []
    split
    · exact resultInvariant_failure "parse" _
    · split
      · exact resultInvariant_failure "parse" _
      · exact resultInvariant_postGate C hreduce hccs scriptId data environment

/-- C5: every compilation result returned by compileScriptContents,
compileScriptRaw or compileScript satisfies the contract: a failure carries
no bytecode field and a non-empty error list, a success always carries a
bytecode field. The two hypotheses are the documented contracts of the
external collaborators (reduction errors, when present, are non-empty, and
the synchronous common compiler returns contract-satisfying results). -/
theorem C5_result_invariant (C : Collaborators Tree Resolved R V S)
    (hreduce : ∀ rs vm st, (C.reduceScript rs vm st).errors ≠ some [])
    (hccs : ∀ scripts vars vm id bindings,
      ResultInvariant (C.createCompilerCommonSynchronous scripts vars vm id bindings))
    (script scriptId : String) (data : CompilationData)
    (environment : CompilationEnvironment V S) :
    ResultInvariant (compileScriptContents C script data environment) ∧
    ResultInvariant (compileScriptRaw C data environment scriptId) ∧
    ResultInvariant (compileScript C scriptId data environment) :=
  ⟨resultInvariant_contents C hreduce script data environment,
    resultInvariant_raw C hreduce data environment scriptId,
    resultInvariant_compileScript C hreduce hccs scriptId data environment⟩

/-- Witness for C5 with the trivial collaborators at a concrete script. -/
theorem C5_witness : ResultInvariant (compileScript unitCollab "a" {} envSimple) :=
  (C5_result_invariant unitCollab (fun _ _ _ h => nomatch h)
    (by
      intro scripts vars vm id bindings
      exact ⟨(fun h => nomatch h), fun _ => ⟨[2], rfl⟩⟩)
    "s" "a" {} envSimple).2.2

/-- C6: once parsing succeeds, the stage pipeline behaves as follows. If
resolution reports errors, the result is a resolve-kind failure carrying all
of them plus the parse and resolve artifacts and neither a reduce artifact
nor a bytecode field. If resolution is clean and reduction reports errors,
the result is a reduce-kind failure carrying them and all three artifacts
with the bytecode field omitted. If reduction succeeds, the result is a
success with the bytecode and all three artifacts. -/
theorem C6_stage_pipeline (C : Collaborators Tree Resolved R V S) (script : String)
    (data : CompilationData) (environment : CompilationEnvironment V S)
    (value : Tree) (hp : C.parseScript script = ParseResult.success value) :
    ((C.getResolutionErrors (C.resolveScriptSegment value
        (C.createIdentifierResolver data environment))) ≠ [] →
      compileScriptContents C script data environment =
        { success := false
          errorType := some "resolve"
          errors := some (C.getResolutionErrors (C.resolveScriptSegment value
            (C.createIdentifierResolver data environment)))
          parse := some value
          resolve := some (C.resolveScriptSegment value
            (C.createIdentifierResolver data environment)) }) ∧
    ((C.getResolutionErrors (C.resolveScriptSegment value
        (C.createIdentifierResolver data environment))) = [] →
      ∀ errs,
        (C.reduceScript (C.resolveScriptSegment value
          (C.createIdentifierResolver data environment))
          environment.vm environment.createState).errors = some errs →
        compileScriptContents C script data environment =
          { success := false
            errorType := some "reduce"
            errors := some errs
            parse := some value
            resolve := some (C.resolveScriptSegment value
              (C.createIdentifierResolver data environment))
            reduce := some (C.reduceScript (C.resolveScriptSegment value
              (C.createIdentifierResolver data environment))
              environment.vm environment.createState) }) ∧
    ((C.getResolutionErrors (C.resolveScriptSegment value
        (C.createIdentifierResolver data environment))) = [] →
      (C.reduceScript (C.resolveScriptSegment value
        (C.createIdentifierResolver data environment))
        environment.vm environment.createState).errors = none →
      compileScriptContents C script data environment =
        { success := true
          bytecode := some (C.reduceScript (C.resolveScriptSegment value
            (C.createIdentifierResolver data environment))
            environment.vm environment.createState).bytecode
          parse := some value
          resolve := some (C.resolveScriptSegment value
            (C.createIdentifierResolver data environment))
          reduce := some (C.reduceScript (C.resolveScriptSegment value
            (C.createIdentifierResolver data environment))
            environment.vm environment.createState) }) := by
  unfold compileScriptContents
  rw [hp]
  simp only []
  refine ⟨?_, ?_, ?_⟩
  · intro hres
    rw [if_pos (fun hlen => hres (List.length_eq_zero.mp hlen))]
  · intro hres errs herrs
    rw [if_neg (fun hlen => hlen (by rw [hres]; rfl))]
    simp only [herrs]
  · intro hres herrs
    rw [if_neg (fun hlen => hlen (by rw [hres]; rfl))]
    simp only [herrs]

/-- Witness for C6: the three pipeline outcomes at concrete collaborators. -/
theorem C6_witness :
    compileScriptContents resolveFailCollab "s" {} envSimple =
      { success := false, errorType := some "resolve",
        errors := some [{ error := "unknown identifier", range := emptyRange }],
        parse := some (), resolve := some () } ∧
    compileScriptContents reduceFailCollab "s" {} envSimple =
      { success := false, errorType := some "reduce",
        errors := some [{ error := "reduce failed", range := emptyRange }],
        parse := some (), resolve := some (),
        reduce := some ⟨[], some [{ error := "reduce failed", range := emptyRange }]⟩ } ∧
    compileScriptContents unitCollab "s" {} envSimple =
      { success := true, bytecode := some [1], parse := some (), resolve := some (),
        reduce := some ⟨[1], none⟩ } := by
  refine ⟨?_, ?_, ?_⟩
  · exact (C6_stage_pipeline resolveFailCollab "s" {} envSimple () rfl).1 (by decide)
  · exact (C6_stage_pipeline reduceFailCollab "s" {} envSimple () rfl).2.1 rfl _ rfl
  · exact (C6_stage_pipeline unitCollab "s" {} envSimple () rfl).2.2 rfl rfl

end Libauth
